import Mathlib

/-!
Shallow embedding of `fastapi_timeout/middleware.py`.

Asynchronous computations are modelled as timed values: a `Work` is the
observable behaviour of one awaited computation — the (ideal-clock) time at
which it settles, together with the response it produces or the exception it
raises.  Synchronous code between awaits takes zero time, which is the
cooperative single-threaded scheduling model the source assumes.
`asyncio.wait_for` becomes `wait_for`: it forwards a computation that settles
strictly before the deadline and otherwise raises `Exc.timeoutError` at the
deadline, cancelling the computation.  JSON bodies are association lists so
that presence and absence of keys is observable.
-/

namespace FastapiTimeout

/-- A JSON value as used in the middleware's response bodies. -/
inductive Jv where
  | str : String → Jv
  | num : ℚ → Jv
deriving DecidableEq

/-- A JSON object body: ordered key/value pairs. -/
abbrev Body := List (String × Jv)

/-- Key lookup in a JSON body, `none` when the key is absent. -/
def Body.get (b : Body) (k : String) : Option Jv :=
  (b.find? (fun p => p.1 == k)).map (fun p => p.2)

/-- An HTTP response: status code plus JSON body. -/
structure Response where
  status_code : ℤ
  body : Body
deriving DecidableEq

/-- Exceptions: `asyncio.TimeoutError`, or any other error raised by
handler code, identified by a tag. -/
inductive Exc where
  | timeoutError : Exc
  | other : String → Exc
deriving DecidableEq

/-- The request object handed to custom timeout handlers
(`fastapi.Request`); only its identity/path matters to the model. -/
structure Request where
  path : String
deriving DecidableEq

/-- An ASGI scope: protocol type and path. -/
structure Scope where
  type : String
  path : String
deriving DecidableEq

instance {ε α : Type} [DecidableEq ε] [DecidableEq α] : DecidableEq (Except ε α) := fun x y =>
  match x, y with
  | Except.ok a, Except.ok b => decidable_of_iff (a = b) (by simp)
  | Except.ok _, Except.error _ => Decidable.isFalse (by simp)
  | Except.error _, Except.ok _ => Decidable.isFalse (by simp)
  | Except.error a, Except.error b => decidable_of_iff (a = b) (by simp)

/-- The observable behaviour of one awaited computation: the time at which
it settles and what it produces (a response, or a raised exception). -/
structure Work where
  duration : ℚ
  result : Except Exc Response
deriving DecidableEq

/-- Type of `custom_timeout_handler`: given the request and the elapsed
processing time, it returns a response or raises. -/
abbrev Responder := Request → ℚ → Except Exc Response

/-- `asyncio.wait_for(aw, timeout)`: if the computation settles strictly
before the deadline its outcome is forwarded; otherwise it is cancelled and
`asyncio.TimeoutError` is raised at the deadline. -/
def wait_for (w : Work) (t : ℚ) : Work :=
  if w.duration < t then w else { duration := t, result := Except.error Exc.timeoutError }

/-- `1000 * q` rounded to the nearest integer, ties to even — the rounding
mode of Python's builtin `round` — computed with integer arithmetic so the
kernel can evaluate it on concrete inputs. -/
def roundAt3 (q : ℚ) : ℤ :=
  let a := q.num * 1000
  let b := (q.den : ℤ)
  let n := Int.fdiv a b
  let r2 := 2 * (a - n * b)
  if r2 < b then n
  else if b < r2 then n + 1
  else if n % 2 = 0 then n else n + 1

/-- Python's `round(x, 3)`: round to three decimal places. -/
def round3 (q : ℚ) : ℚ := mkRat (roundAt3 q) 1000

/-- The `ValueError` message raised for status code 408
(`middleware.py` lines 62-67, 152-157, 251-256). -/
def http408Error : String :=
  "HTTP 408 (Request Timeout) should not be used as it causes browsers " ++
  "and HTTP clients to automatically retry requests. Use 504 (Gateway Timeout) " ++
  "or 503 (Service Unavailable) instead."

/-- `TimeoutMiddleware` after a successful `__init__`: the wrapped ASGI app
plus the five configuration attributes (`middleware.py` lines 52-74). -/
structure TimeoutMiddleware where
  app : Scope → Work
  timeout_seconds : ℚ
  timeout_status_code : ℤ
  timeout_message : String
  include_process_time : Bool
  custom_timeout_handler : Option Responder

/-- `TimeoutMiddleware.__init__`: validates the status code before storing
the configuration (`middleware.py` lines 52-74). -/
def TimeoutMiddleware.init (app : Scope → Work) (timeout_seconds : ℚ)
    (timeout_status_code : ℤ) (timeout_message : String)
    (include_process_time : Bool) (custom_timeout_handler : Option Responder) :
    Except String TimeoutMiddleware :=
  if timeout_status_code = 408 then
    Except.error http408Error
  else
    Except.ok
      { app := app
        timeout_seconds := timeout_seconds
        timeout_status_code := timeout_status_code
        timeout_message := timeout_message
        include_process_time := include_process_time
        custom_timeout_handler := custom_timeout_handler }

/-- `TimeoutMiddleware._default_timeout_response` (`middleware.py`
lines 100-113): `detail` and `timeout_seconds` always, `processing_time`
added only when `include_process_time` is set. -/
def TimeoutMiddleware.default_timeout_response (m : TimeoutMiddleware)
    (process_time : ℚ) : Response :=
  let content : Body :=
    [("detail", Jv.str m.timeout_message), ("timeout_seconds", Jv.num m.timeout_seconds)]
  let content :=
    if m.include_process_time then content ++ [("processing_time", Jv.num (round3 process_time))]
    else content
  { status_code := m.timeout_status_code, body := content }

/-- `TimeoutMiddleware.__call__` (`middleware.py` lines 76-98): non-http
scopes are forwarded untouched; http scopes race the wrapped app against the
deadline, and on `asyncio.TimeoutError` either the custom handler or the
default timeout response is sent. -/
def TimeoutMiddleware.call (m : TimeoutMiddleware) (scope : Scope) : Work :=
  if scope.type ≠ "http" then
    m.app scope
  else
    let w := wait_for (m.app scope) m.timeout_seconds
    match w.result with
    | Except.error Exc.timeoutError =>
        let process_time := w.duration
        match m.custom_timeout_handler with
        | some handler =>
            let request : Request := { path := scope.path }
            { duration := w.duration, result := handler request process_time }
        | none =>
            { duration := w.duration,
              result := Except.ok (m.default_timeout_response process_time) }
    | _ => w

/-- `_timeout_middleware_function` (`middleware.py` lines 168-199): race
`call_next(request)` against the deadline; on `asyncio.TimeoutError` return
the custom handler's response, else the inline default JSON response. -/
def timeout_middleware_function (request : Request) (call_next : Request → Work)
    (timeout_seconds : ℚ) (timeout_status_code : ℤ) (timeout_message : String)
    (include_process_time : Bool) (custom_timeout_handler : Option Responder) : Work :=
  let w := wait_for (call_next request) timeout_seconds
  match w.result with
  | Except.error Exc.timeoutError =>
      let process_time := w.duration
      match custom_timeout_handler with
      | some handler => { duration := w.duration, result := handler request process_time }
      | none =>
          let content : Body :=
            [("detail", Jv.str timeout_message), ("timeout_seconds", Jv.num timeout_seconds)]
          let content :=
            if include_process_time then
              content ++ [("processing_time", Jv.num (round3 process_time))]
            else content
          { duration := w.duration,
            result := Except.ok { status_code := timeout_status_code, body := content } }
  | _ => w

/-- `timeout_middleware` (`middleware.py` lines 117-165): validates the
status code and returns the decorator closure delegating to
`_timeout_middleware_function`. -/
def timeout_middleware (timeout_seconds : ℚ) (timeout_status_code : ℤ)
    (timeout_message : String) (include_process_time : Bool)
    (custom_timeout_handler : Option Responder) :
    Except String (Request → (Request → Work) → Work) :=
  if timeout_status_code = 408 then
    Except.error http408Error
  else
    Except.ok (fun request call_next =>
      timeout_middleware_function request call_next timeout_seconds timeout_status_code
        timeout_message include_process_time custom_timeout_handler)

/-- A positional argument passed to a decorated endpoint: either a
`fastapi.Request` (recognised by the `isinstance` scan) or some other
object. -/
inductive Arg where
  | request : Request → Arg
  | other : String → Arg
deriving DecidableEq

/-- One invocation of a decorated endpoint: its positional `args` and its
keyword arguments (modelled for the invocations the framework produces,
where a `request` keyword, when present, holds the actual request). -/
structure Invocation where
  args : List Arg
  kwargs : List (String × Request)
deriving DecidableEq

/-- The request-extraction scan inside the decorator's wrapper
(`middleware.py` lines 261-270): first `Request` among the positional
arguments, else `kwargs.get('request')`. -/
def extract_request (inv : Invocation) : Option Request :=
  match inv.args.findSome? (fun a =>
      match a with
      | Arg.request r => some r
      | Arg.other _ => none) with
  | some r => some r
  | none => (inv.kwargs.find? (fun p => p.1 == "request")).map (fun p => p.2)

/-- The `wrapper` closure built by the `timeout` decorator (`middleware.py`
lines 258-303), with the decorator's captured configuration made explicit
parameters: extract the request, race the endpoint against the deadline, and
on `asyncio.TimeoutError` use the custom handler only when both it and a
request are available, else the default JSON response. -/
def timeout.wrapper (timeout_seconds : ℚ) (timeout_status_code : ℤ)
    (timeout_message : String) (include_process_time : Bool)
    (custom_timeout_handler : Option Responder)
    (func : Invocation → Work) (inv : Invocation) : Work :=
  let request := extract_request inv
  let w := wait_for (func inv) timeout_seconds
  match w.result with
  | Except.error Exc.timeoutError =>
      let process_time := w.duration
      match custom_timeout_handler, request with
      | some handler, some r => { duration := w.duration, result := handler r process_time }
      | _, _ =>
          let content : Body :=
            [("detail", Jv.str timeout_message), ("timeout_seconds", Jv.num timeout_seconds)]
          let content :=
            if include_process_time then
              content ++ [("processing_time", Jv.num (round3 process_time))]
            else content
          { duration := w.duration,
            result := Except.ok { status_code := timeout_status_code, body := content } }
  | _ => w

/-- `timeout` (`middleware.py` lines 203-304): validates the status code and
returns the decorator producing `timeout.wrapper`. -/
def timeout (timeout_seconds : ℚ) (timeout_status_code : ℤ)
    (timeout_message : String) (include_process_time : Bool)
    (custom_timeout_handler : Option Responder) :
    Except String ((Invocation → Work) → Invocation → Work) :=
  if timeout_status_code = 408 then
    Except.error http408Error
  else
    Except.ok (timeout.wrapper timeout_seconds timeout_status_code timeout_message
      include_process_time custom_timeout_handler)

/-- `endpoint_timeout = timeout` (`middleware.py` line 308). -/
def endpoint_timeout := timeout

/-- `True` exactly when an `Except` value is a success. -/
def isOk {ε α : Type} : Except ε α → Bool
  | Except.ok _ => true
  | Except.error _ => false

end FastapiTimeout
namespace FastapiTimeout

/-- A trivially fast app used as a concrete wrapped application. -/
def okApp : Scope → Work := fun _ =>
  { duration := 0, result := Except.ok { status_code := 200, body := [] } }

/-- Claim C3: for every construction of a timeout policy (via
TimeoutMiddleware, timeout_middleware, or the timeout decorator),
statusCode 408 fails synchronously at setup time with a validation error,
and any other integer status code succeeds. -/
theorem statusCode_validation (app : Scope → Work) (ts : ℚ) (sc : ℤ)
    (msg : String) (ipt : Bool) (cth : Option Responder) (h : sc ≠ 408) :
    isOk (TimeoutMiddleware.init app ts sc msg ipt cth) = true ∧
    isOk (timeout_middleware ts sc msg ipt cth) = true ∧
    isOk (timeout ts sc msg ipt cth) = true ∧
    isOk (TimeoutMiddleware.init app ts 408 msg ipt cth) = false ∧
    isOk (timeout_middleware ts 408 msg ipt cth) = false ∧
    isOk (timeout ts 408 msg ipt cth) = false := by
  simp [TimeoutMiddleware.init, timeout_middleware, timeout, isOk, h]

theorem statusCode_validation_witness :
    (504 : ℤ) ≠ 408 ∧
    (isOk (TimeoutMiddleware.init okApp 30 504 "msg" true none) = true ∧
     isOk (timeout_middleware 30 504 "msg" true none) = true ∧
     isOk (timeout 30 504 "msg" true none) = true ∧
     isOk (TimeoutMiddleware.init okApp 30 408 "msg" true none) = false ∧
     isOk (timeout_middleware 30 408 "msg" true none) = false ∧
     isOk (timeout 30 408 "msg" true none) = false) :=
  ⟨by decide, statusCode_validation okApp 30 504 "msg" true none (by decide)⟩

/-- Claim C8: a non-http scope bypasses the timeout logic entirely: the
middleware forwards it to the wrapped application unmodified, so no timer
runs and no timeout response can be produced for it. -/
theorem non_http_bypass (m : TimeoutMiddleware) (scope : Scope)
    (h : scope.type ≠ "http") :
    m.call scope = m.app scope := by
  simp [TimeoutMiddleware.call, h]

def wsScope : Scope := { type := "websocket", path := "/" }

def wsMw : TimeoutMiddleware :=
  { app := okApp, timeout_seconds := 1, timeout_status_code := 504,
    timeout_message := "msg", include_process_time := true,
    custom_timeout_handler := none }

theorem non_http_bypass_witness :
    wsScope.type ≠ "http" ∧ wsMw.call wsScope = wsMw.app wsScope :=
  ⟨by decide, non_http_bypass wsMw wsScope (by decide)⟩

/-- Claim C10: endpoint_timeout is the same function as the timeout
decorator, so decorating with either produces identical behavior. -/
theorem endpoint_timeout_alias : endpoint_timeout = timeout := rfl

end FastapiTimeout
namespace FastapiTimeout

/-- Claim C4: a work unit that completes strictly before the deadline has
its result propagated unchanged — the whole timed outcome of the
decorator-style middleware and of the decorator wrapper is the work's own
outcome, the response status is the work's own status, and no timeout
response is emitted. -/
theorem fast_work_passthrough
    (request : Request) (call_next : Request → Work)
    (ts1 : ℚ) (sc1 : ℤ) (msg1 : String) (ipt1 : Bool) (cth1 : Option Responder)
    (func : Invocation → Work) (inv : Invocation)
    (ts2 : ℚ) (sc2 : ℤ) (msg2 : String) (ipt2 : Bool) (cth2 : Option Responder)
    (r1 r2 : Response)
    (h1 : (call_next request).duration < ts1)
    (h2 : (call_next request).result = Except.ok r1)
    (h3 : (func inv).duration < ts2)
    (h4 : (func inv).result = Except.ok r2) :
    timeout_middleware_function request call_next ts1 sc1 msg1 ipt1 cth1 = call_next request ∧
    (timeout_middleware_function request call_next ts1 sc1 msg1 ipt1 cth1).result =
      Except.ok r1 ∧
    timeout.wrapper ts2 sc2 msg2 ipt2 cth2 func inv = func inv ∧
    (timeout.wrapper ts2 sc2 msg2 ipt2 cth2 func inv).result = Except.ok r2 := by
  have e1 : wait_for (call_next request) ts1 = call_next request := by
    unfold wait_for; rw [if_pos h1]
  have e2 : wait_for (func inv) ts2 = func inv := by
    unfold wait_for; rw [if_pos h3]
  refine ⟨?_, ?_, ?_, ?_⟩ <;>
    simp [timeout_middleware_function, timeout.wrapper, e1, e2, h2, h4]

def fastNext : Request → Work := fun _ =>
  { duration := 1, result := Except.ok { status_code := 201, body := [] } }

def fastEndpoint : Invocation → Work := fun _ =>
  { duration := 1, result := Except.ok { status_code := 202, body := [] } }

theorem fast_work_passthrough_witness :
    ((fastNext { path := "/a" }).duration < 5 ∧
     (fastNext { path := "/a" }).result = Except.ok { status_code := 201, body := [] } ∧
     (fastEndpoint { args := [], kwargs := [] }).duration < 4 ∧
     (fastEndpoint { args := [], kwargs := [] }).result =
       Except.ok { status_code := 202, body := [] }) ∧
    (timeout_middleware_function { path := "/a" } fastNext 5 504 "m" true none =
       fastNext { path := "/a" } ∧
     (timeout_middleware_function { path := "/a" } fastNext 5 504 "m" true none).result =
       Except.ok { status_code := 201, body := [] } ∧
     timeout.wrapper 4 503 "n" false none fastEndpoint { args := [], kwargs := [] } =
       fastEndpoint { args := [], kwargs := [] } ∧
     (timeout.wrapper 4 503 "n" false none fastEndpoint { args := [], kwargs := [] }).result =
       Except.ok { status_code := 202, body := [] }) :=
  ⟨by decide,
   fast_work_passthrough { path := "/a" } fastNext 5 504 "m" true none
     fastEndpoint { args := [], kwargs := [] } 4 503 "n" false none
     { status_code := 201, body := [] } { status_code := 202, body := [] }
     (by decide) (by decide) (by decide) (by decide)⟩

/-- Claim C6: a work unit that raises an error distinct from timing out has
that error propagated to the caller unchanged by the decorator-style
middleware and the decorator wrapper; it is never wrapped, swallowed, or
reclassified into a timeout response. -/
theorem handler_error_propagation
    (request : Request) (call_next : Request → Work)
    (ts1 : ℚ) (sc1 : ℤ) (msg1 : String) (ipt1 : Bool) (cth1 : Option Responder)
    (func : Invocation → Work) (inv : Invocation)
    (ts2 : ℚ) (sc2 : ℤ) (msg2 : String) (ipt2 : Bool) (cth2 : Option Responder)
    (e1 e2 : String)
    (h1 : (call_next request).duration < ts1)
    (h2 : (call_next request).result = Except.error (Exc.other e1))
    (h3 : (func inv).duration < ts2)
    (h4 : (func inv).result = Except.error (Exc.other e2)) :
    timeout_middleware_function request call_next ts1 sc1 msg1 ipt1 cth1 = call_next request ∧
    (timeout_middleware_function request call_next ts1 sc1 msg1 ipt1 cth1).result =
      Except.error (Exc.other e1) ∧
    timeout.wrapper ts2 sc2 msg2 ipt2 cth2 func inv = func inv ∧
    (timeout.wrapper ts2 sc2 msg2 ipt2 cth2 func inv).result = Except.error (Exc.other e2) := by
  have e1w : wait_for (call_next request) ts1 = call_next request := by
    unfold wait_for; rw [if_pos h1]
  have e2w : wait_for (func inv) ts2 = func inv := by
    unfold wait_for; rw [if_pos h3]
  refine ⟨?_, ?_, ?_, ?_⟩ <;>
    simp [timeout_middleware_function, timeout.wrapper, e1w, e2w, h2, h4]

def failingNext : Request → Work := fun _ =>
  { duration := 1, result := Except.error (Exc.other "ValueError") }

def failingEndpoint : Invocation → Work := fun _ =>
  { duration := 1, result := Except.error (Exc.other "KeyError") }

theorem handler_error_propagation_witness :
    ((failingNext { path := "/b" }).duration < 5 ∧
     (failingNext { path := "/b" }).result = Except.error (Exc.other "ValueError") ∧
     (failingEndpoint { args := [], kwargs := [] }).duration < 4 ∧
     (failingEndpoint { args := [], kwargs := [] }).result =
       Except.error (Exc.other "KeyError")) ∧
    (timeout_middleware_function { path := "/b" } failingNext 5 504 "m" true none =
       failingNext { path := "/b" } ∧
     (timeout_middleware_function { path := "/b" } failingNext 5 504 "m" true none).result =
       Except.error (Exc.other "ValueError") ∧
     timeout.wrapper 4 503 "n" false none failingEndpoint { args := [], kwargs := [] } =
       failingEndpoint { args := [], kwargs := [] } ∧
     (timeout.wrapper 4 503 "n" false none failingEndpoint { args := [], kwargs := [] }).result =
       Except.error (Exc.other "KeyError")) :=
  ⟨by decide,
   handler_error_propagation { path := "/b" } failingNext 5 504 "m" true none
     failingEndpoint { args := [], kwargs := [] } 4 503 "n" false none
     "ValueError" "KeyError" (by decide) (by decide) (by decide) (by decide)⟩

end FastapiTimeout
namespace FastapiTimeout

/-- A slow app: it would settle at time 9 with a 200 response. -/
def slowApp0 : Scope → Work := fun _ =>
  { duration := 9, result := Except.ok { status_code := 200, body := [] } }

/-- A slow endpoint: it would settle at time 9 with a 200 response. -/
def slowEndpoint0 : Invocation → Work := fun _ =>
  { duration := 9, result := Except.ok { status_code := 200, body := [] } }

end FastapiTimeout
namespace FastapiTimeout

/-- Claim C7: every default timeout response body has detail equal to the
policy's message and timeout_seconds equal to the policy's duration, and
the processing_time key is present with value round(elapsed, 3) exactly
when include_process_time is true, and absent otherwise — both for
TimeoutMiddleware's default response builder and for the inline body built
by the decorator-style middleware function on expiry. -/
theorem default_body_shape (m : TimeoutMiddleware) (pt : ℚ)
    (request : Request) (call_next : Request → Work)
    (ts : ℚ) (sc : ℤ) (msg : String) (ipt : Bool)
    (h1 : ts ≤ (call_next request).duration) :
    Body.get (m.default_timeout_response pt).body "detail" =
      some (Jv.str m.timeout_message) ∧
    Body.get (m.default_timeout_response pt).body "timeout_seconds" =
      some (Jv.num m.timeout_seconds) ∧
    Body.get (m.default_timeout_response pt).body "processing_time" =
      (if m.include_process_time then some (Jv.num (round3 pt)) else none) ∧
    ∃ r : Response,
      (timeout_middleware_function request call_next ts sc msg ipt none).result =
        Except.ok r ∧
      r.status_code = sc ∧
      Body.get r.body "detail" = some (Jv.str msg) ∧
      Body.get r.body "timeout_seconds" = some (Jv.num ts) ∧
      Body.get r.body "processing_time" =
        (if ipt then some (Jv.num (round3 ts)) else none) := by
  have hw : wait_for (call_next request) ts =
      { duration := ts, result := Except.error Exc.timeoutError } := by
    unfold wait_for; rw [if_neg (not_lt.mpr h1)]
  refine ⟨?_, ?_, ?_, ?_⟩
  · cases hi : m.include_process_time <;>
      simp [TimeoutMiddleware.default_timeout_response, Body.get, List.find?, hi]
  · cases hi : m.include_process_time <;>
      simp [TimeoutMiddleware.default_timeout_response, Body.get, List.find?, hi]
  · cases hi : m.include_process_time <;>
      simp [TimeoutMiddleware.default_timeout_response, Body.get, List.find?, hi]
  · cases hi : ipt
    · refine ⟨{ status_code := sc,
                body := [("detail", Jv.str msg), ("timeout_seconds", Jv.num ts)] },
        ?_, rfl, ?_, ?_, ?_⟩ <;>
        simp [timeout_middleware_function, hw, Body.get, List.find?]
    · refine ⟨{ status_code := sc,
                body := [("detail", Jv.str msg), ("timeout_seconds", Jv.num ts),
                         ("processing_time", Jv.num (round3 ts))] },
        ?_, rfl, ?_, ?_, ?_⟩ <;>
        simp [timeout_middleware_function, hw, Body.get, List.find?]

def slowNext : Request → Work := fun _ =>
  { duration := 9, result := Except.ok { status_code := 200, body := [] } }

def plainMw : TimeoutMiddleware :=
  { app := okApp, timeout_seconds := 2, timeout_status_code := 504,
    timeout_message := "Test timeout", include_process_time := true,
    custom_timeout_handler := none }

theorem default_body_shape_witness :
    ((3 : ℚ) ≤ (slowNext { path := "/c" }).duration) ∧
    (Body.get (plainMw.default_timeout_response 1).body "detail" =
       some (Jv.str plainMw.timeout_message) ∧
     Body.get (plainMw.default_timeout_response 1).body "timeout_seconds" =
       some (Jv.num plainMw.timeout_seconds) ∧
     Body.get (plainMw.default_timeout_response 1).body "processing_time" =
       (if plainMw.include_process_time then some (Jv.num (round3 1)) else none) ∧
     ∃ r : Response,
       (timeout_middleware_function { path := "/c" } slowNext 3 504 "m" true none).result =
         Except.ok r ∧
       r.status_code = 504 ∧
       Body.get r.body "detail" = some (Jv.str "m") ∧
       Body.get r.body "timeout_seconds" = some (Jv.num 3) ∧
       Body.get r.body "processing_time" = (if true then some (Jv.num (round3 3)) else none)) :=
  ⟨by decide,
   default_body_shape plainMw 1 { path := "/c" } slowNext 3 504 "m" true (by decide)⟩

/-- Claim C9: when a configured custom responder raises while building the
timeout response, the failure propagates to the caller — neither the
middleware nor the decorator wrapper falls back to the default responder. -/
theorem responder_failure_propagation
    (m : TimeoutMiddleware) (scope : Scope) (hdl : Responder) (e1 : Exc)
    (func : Invocation → Work) (inv : Invocation) (hdl2 : Responder)
    (ts : ℚ) (sc : ℤ) (msg : String) (ipt : Bool) (req : Request) (e2 : Exc)
    (hscope : scope.type = "http")
    (hm : m.custom_timeout_handler = some hdl)
    (hslow1 : m.timeout_seconds ≤ (m.app scope).duration)
    (hfail1 : hdl { path := scope.path } m.timeout_seconds = Except.error e1)
    (hreq : extract_request inv = some req)
    (hslow2 : ts ≤ (func inv).duration)
    (hfail2 : hdl2 req ts = Except.error e2) :
    (m.call scope).result = Except.error e1 ∧
    (timeout.wrapper ts sc msg ipt (some hdl2) func inv).result = Except.error e2 := by
  have hw1 : wait_for (m.app scope) m.timeout_seconds =
      { duration := m.timeout_seconds, result := Except.error Exc.timeoutError } := by
    unfold wait_for; rw [if_neg (not_lt.mpr hslow1)]
  have hw2 : wait_for (func inv) ts =
      { duration := ts, result := Except.error Exc.timeoutError } := by
    unfold wait_for; rw [if_neg (not_lt.mpr hslow2)]
  constructor
  · simp [TimeoutMiddleware.call, hscope, hw1, hm, hfail1]
  · simp [timeout.wrapper, hw2, hreq, hfail2]

def raisingResponder : Responder := fun _ _ => Except.error (Exc.other "boom")

def raisingRespMw : TimeoutMiddleware :=
  { app := slowApp0, timeout_seconds := 1, timeout_status_code := 504,
    timeout_message := "m", include_process_time := true,
    custom_timeout_handler := some raisingResponder }

theorem responder_failure_propagation_witness :
    (({ type := "http", path := "/d" } : Scope).type = "http" ∧
     raisingRespMw.custom_timeout_handler = some raisingResponder ∧
     raisingRespMw.timeout_seconds ≤ (raisingRespMw.app { type := "http", path := "/d" }).duration ∧
     raisingResponder { path := "/d" } raisingRespMw.timeout_seconds =
       Except.error (Exc.other "boom") ∧
     extract_request { args := [Arg.request { path := "/d" }], kwargs := [] } =
       some { path := "/d" } ∧
     (3 : ℚ) ≤ (slowEndpoint0 { args := [Arg.request { path := "/d" }], kwargs := [] }).duration ∧
     raisingResponder { path := "/d" } 3 = Except.error (Exc.other "boom")) ∧
    ((raisingRespMw.call { type := "http", path := "/d" }).result =
       Except.error (Exc.other "boom") ∧
     (timeout.wrapper 3 503 "n" false (some raisingResponder) slowEndpoint0
        { args := [Arg.request { path := "/d" }], kwargs := [] }).result =
       Except.error (Exc.other "boom")) :=
  ⟨⟨rfl, rfl, by decide, rfl, by decide, by decide, rfl⟩,
   responder_failure_propagation raisingRespMw { type := "http", path := "/d" }
     raisingResponder (Exc.other "boom") slowEndpoint0
     { args := [Arg.request { path := "/d" }], kwargs := [] } raisingResponder
     3 503 "n" false { path := "/d" } (Exc.other "boom")
     rfl rfl (by decide) rfl (by decide) (by decide) rfl⟩

end FastapiTimeout
namespace FastapiTimeout

/-- A custom responder returning a 503 response, unlike the policy's 504. -/
def altStatusResponder : Responder := fun _ pt =>
  Except.ok { status_code := 503, body := [("time", Jv.num pt)] }

def altStatusMw : TimeoutMiddleware :=
  { app := slowApp0, timeout_seconds := 1, timeout_status_code := 504,
    timeout_message := "m", include_process_time := true,
    custom_timeout_handler := some altStatusResponder }

/-- Claim C2 counterexample: a policy with statusCode 504 and a custom
responder returning status 503; the work does not complete before the
deadline, yet the emitted response's status is 503, not the policy's
configured statusCode. -/
theorem expiry_status_counterexample :
    (altStatusMw.call { type := "http", path := "/t" }).result =
      Except.ok { status_code := 503, body := [("time", Jv.num 1)] } ∧
    (503 : ℤ) ≠ altStatusMw.timeout_status_code := by decide

/-- Claim C2 amended: for every invocation whose work does not complete
before the deadline, under a policy with no custom responder, exactly one
response is produced and its status code equals the policy's configured
statusCode (with a custom responder configured, what that responder
returns is emitted instead). -/
theorem expiry_status_amended (m : TimeoutMiddleware) (scope : Scope)
    (request : Request) (call_next : Request → Work)
    (ts : ℚ) (sc : ℤ) (msg : String) (ipt : Bool)
    (hscope : scope.type = "http")
    (hm : m.custom_timeout_handler = none)
    (hslow1 : m.timeout_seconds ≤ (m.app scope).duration)
    (hslow2 : ts ≤ (call_next request).duration) :
    ((m.call scope).result =
       Except.ok (m.default_timeout_response m.timeout_seconds) ∧
     (m.default_timeout_response m.timeout_seconds).status_code =
       m.timeout_status_code) ∧
    ∃ r : Response,
      (timeout_middleware_function request call_next ts sc msg ipt none).result =
        Except.ok r ∧
      r.status_code = sc := by
  have hw1 : wait_for (m.app scope) m.timeout_seconds =
      { duration := m.timeout_seconds, result := Except.error Exc.timeoutError } := by
    unfold wait_for; rw [if_neg (not_lt.mpr hslow1)]
  have hw2 : wait_for (call_next request) ts =
      { duration := ts, result := Except.error Exc.timeoutError } := by
    unfold wait_for; rw [if_neg (not_lt.mpr hslow2)]
  refine ⟨⟨?_, rfl⟩, ?_⟩
  · simp [TimeoutMiddleware.call, hscope, hw1, hm]
  · cases hi : ipt
    · exact ⟨{ status_code := sc,
               body := [("detail", Jv.str msg), ("timeout_seconds", Jv.num ts)] },
        by simp [timeout_middleware_function, hw2, hi], rfl⟩
    · exact ⟨{ status_code := sc,
               body := [("detail", Jv.str msg), ("timeout_seconds", Jv.num ts),
                        ("processing_time", Jv.num (round3 ts))] },
        by simp [timeout_middleware_function, hw2, hi], rfl⟩

def plainSlowMw : TimeoutMiddleware :=
  { app := slowApp0, timeout_seconds := 2, timeout_status_code := 504,
    timeout_message := "Test timeout", include_process_time := false,
    custom_timeout_handler := none }

theorem expiry_status_amended_witness :
    (({ type := "http", path := "/t" } : Scope).type = "http" ∧
     plainSlowMw.custom_timeout_handler = none ∧
     plainSlowMw.timeout_seconds ≤ (plainSlowMw.app { type := "http", path := "/t" }).duration ∧
     (3 : ℚ) ≤ (slowNext { path := "/t" }).duration) ∧
    (((plainSlowMw.call { type := "http", path := "/t" }).result =
        Except.ok (plainSlowMw.default_timeout_response plainSlowMw.timeout_seconds) ∧
      (plainSlowMw.default_timeout_response plainSlowMw.timeout_seconds).status_code =
        plainSlowMw.timeout_status_code) ∧
     ∃ r : Response,
       (timeout_middleware_function { path := "/t" } slowNext 3 599 "m" false none).result =
         Except.ok r ∧
       r.status_code = 599) :=
  ⟨⟨rfl, rfl, by decide, by decide⟩,
   expiry_status_amended plainSlowMw { type := "http", path := "/t" } { path := "/t" }
     slowNext 3 599 "m" false rfl rfl (by decide) (by decide)⟩

/-- A custom responder for the decorator, returning a 599 response. -/
def epResponder : Responder := fun _ _ =>
  Except.ok { status_code := 599, body := [] }

def noRequestInvocation : Invocation := { args := [Arg.other "x"], kwargs := [] }

/-- Claim C5 counterexample: the timeout decorator with a configured custom
responder, applied to an invocation carrying no request argument; on expiry
the default responder's response is emitted, not the custom responder's,
even though a custom responder is configured. -/
theorem custom_responder_counterexample :
    timeout 1 504 "m" false (some epResponder) =
      Except.ok (timeout.wrapper 1 504 "m" false (some epResponder)) ∧
    (timeout.wrapper 1 504 "m" false (some epResponder) slowEndpoint0
       noRequestInvocation).result =
      Except.ok { status_code := 504,
                  body := [("detail", Jv.str "m"), ("timeout_seconds", Jv.num 1)] } ∧
    (timeout.wrapper 1 504 "m" false (some epResponder) slowEndpoint0
       noRequestInvocation).result ≠
      Except.ok { status_code := 599, body := [] } :=
  ⟨rfl, by decide, by decide⟩

/-- Claim C5 amended: on a timeout expiry with a custom responder set, the
responder is invoked with the request context and the elapsed seconds and
its return value is emitted verbatim — unconditionally on the middleware
path, and on the decorator path whenever a request is found among the
endpoint's arguments; when the decorator finds no request, the default
responder is used even though a custom responder is configured. -/
theorem custom_responder_amended
    (m : TimeoutMiddleware) (scope : Scope) (hdl : Responder)
    (func : Invocation → Work) (inv inv2 : Invocation) (hdl2 : Responder) (req : Request)
    (ts : ℚ) (sc : ℤ) (msg : String) (ipt : Bool)
    (hscope : scope.type = "http")
    (hm : m.custom_timeout_handler = some hdl)
    (hslow1 : m.timeout_seconds ≤ (m.app scope).duration)
    (hslow2 : ts ≤ (func inv).duration)
    (hreq : extract_request inv = some req)
    (hslow3 : ts ≤ (func inv2).duration)
    (hnoreq : extract_request inv2 = none) :
    (m.call scope).result = hdl { path := scope.path } m.timeout_seconds ∧
    (timeout.wrapper ts sc msg ipt (some hdl2) func inv).result = hdl2 req ts ∧
    ∃ r : Response,
      (timeout.wrapper ts sc msg ipt (some hdl2) func inv2).result = Except.ok r ∧
      r.status_code = sc ∧
      Body.get r.body "detail" = some (Jv.str msg) := by
  have hw1 : wait_for (m.app scope) m.timeout_seconds =
      { duration := m.timeout_seconds, result := Except.error Exc.timeoutError } := by
    unfold wait_for; rw [if_neg (not_lt.mpr hslow1)]
  have hw2 : wait_for (func inv) ts =
      { duration := ts, result := Except.error Exc.timeoutError } := by
    unfold wait_for; rw [if_neg (not_lt.mpr hslow2)]
  have hw3 : wait_for (func inv2) ts =
      { duration := ts, result := Except.error Exc.timeoutError } := by
    unfold wait_for; rw [if_neg (not_lt.mpr hslow3)]
  refine ⟨?_, ?_, ?_⟩
  · simp [TimeoutMiddleware.call, hscope, hw1, hm]
  · simp [timeout.wrapper, hw2, hreq]
  · cases hi : ipt
    · exact ⟨{ status_code := sc,
               body := [("detail", Jv.str msg), ("timeout_seconds", Jv.num ts)] },
        by simp [timeout.wrapper, hw3, hnoreq, hi],
        rfl, by simp [Body.get, List.find?]⟩
    · exact ⟨{ status_code := sc,
               body := [("detail", Jv.str msg), ("timeout_seconds", Jv.num ts),
                        ("processing_time", Jv.num (round3 ts))] },
        by simp [timeout.wrapper, hw3, hnoreq, hi],
        rfl, by simp [Body.get, List.find?]⟩

def withRequestInvocation : Invocation := { args := [Arg.request { path := "/e" }], kwargs := [] }

def respondingMw : TimeoutMiddleware :=
  { app := slowApp0, timeout_seconds := 1, timeout_status_code := 504,
    timeout_message := "m", include_process_time := false,
    custom_timeout_handler := some epResponder }

theorem custom_responder_amended_witness :
    (({ type := "http", path := "/e" } : Scope).type = "http" ∧
     respondingMw.custom_timeout_handler = some epResponder ∧
     respondingMw.timeout_seconds ≤ (respondingMw.app { type := "http", path := "/e" }).duration ∧
     (2 : ℚ) ≤ (slowEndpoint0 withRequestInvocation).duration ∧
     extract_request withRequestInvocation = some { path := "/e" } ∧
     (2 : ℚ) ≤ (slowEndpoint0 noRequestInvocation).duration ∧
     extract_request noRequestInvocation = none) ∧
    ((respondingMw.call { type := "http", path := "/e" }).result =
       epResponder { path := "/e" } respondingMw.timeout_seconds ∧
     (timeout.wrapper 2 503 "n" false (some epResponder) slowEndpoint0
        withRequestInvocation).result = epResponder { path := "/e" } 2 ∧
     ∃ r : Response,
       (timeout.wrapper 2 503 "n" false (some epResponder) slowEndpoint0
          noRequestInvocation).result = Except.ok r ∧
       r.status_code = 503 ∧
       Body.get r.body "detail" = some (Jv.str "n")) :=
  ⟨⟨rfl, rfl, by decide, by decide, by decide, by decide, by decide⟩,
   custom_responder_amended respondingMw { type := "http", path := "/e" } epResponder
     slowEndpoint0 withRequestInvocation noRequestInvocation epResponder { path := "/e" }
     2 503 "n" false rfl rfl (by decide) (by decide) (by decide) (by decide) (by decide)⟩

end FastapiTimeout
namespace FastapiTimeout

/-- Registration of a global TimeoutMiddleware (with default responder)
over an application whose behaviour for the request at hand is the timed
outcome `w` — the composition point `app.add_middleware(TimeoutMiddleware, ...)`. -/
def addGlobalMiddleware (gts : ℚ) (gsc : ℤ) (gmsg : String) (gipt : Bool)
    (w : Work) : TimeoutMiddleware :=
  { app := fun _ => w, timeout_seconds := gts, timeout_status_code := gsc,
    timeout_message := gmsg, include_process_time := gipt,
    custom_timeout_handler := none }

/-- A decorated endpoint body that settles at time 2 with its own 200
response. -/
def sleepingEndpoint : Invocation → Work := fun _ =>
  { duration := 2, result := Except.ok { status_code := 200, body := [("status", Jv.str "ok")] } }

def emptyInvocation : Invocation := { args := [], kwargs := [] }

/-- Global middleware of duration 1 over the endpoint decorated with
duration 3. -/
def shortGlobalMw : TimeoutMiddleware :=
  addGlobalMiddleware 1 504 "Global timeout" false
    (timeout.wrapper 3 504 "Decorator timeout" false none sleepingEndpoint emptyInvocation)

/-- Claim C1 counterexample: global duration 1, per-handler duration 3,
handler body settles at 2 — within the handler-level budget.  Were the
per-handler policy governing exclusively (global timer not started), the
handler's own response would be emitted; the code instead emits the global
policy's timeout response. -/
theorem timeout_precedence_counterexample :
    (shortGlobalMw.call { type := "http", path := "/d" }).result ≠
      (sleepingEndpoint emptyInvocation).result ∧
    (shortGlobalMw.call { type := "http", path := "/d" }).result =
      Except.ok { status_code := 504,
                  body := [("detail", Jv.str "Global timeout"),
                           ("timeout_seconds", Jv.num 1)] } ∧
    (sleepingEndpoint emptyInvocation).duration < 3 := by decide

/-- Claim C1 amended: when a handler wrapped by the per-endpoint timeout
decorator sits behind a global TimeoutMiddleware, both timers run.  The
per-handler outcome `w` (the handler's own response, or the handler-level
timeout response — in particular one produced by a shorter handler-level
duration under a longer global policy) is emitted unchanged exactly when it
settles strictly before the global duration (and does not itself escape as
a TimeoutError); when the global duration elapses first, the global
policy's timeout response is emitted instead, even while the handler-level
budget remains. -/
theorem timeout_precedence_amended
    (gts : ℚ) (gsc : ℤ) (gmsg : String) (gipt : Bool)
    (dts : ℚ) (dsc : ℤ) (dmsg : String) (dipt : Bool) (dcth : Option Responder)
    (func : Invocation → Work) (inv : Invocation) (scope : Scope) (w : Work)
    (hscope : scope.type = "http")
    (hw : w = timeout.wrapper dts dsc dmsg dipt dcth func inv) :
    (w.duration < gts → w.result ≠ Except.error Exc.timeoutError →
      (addGlobalMiddleware gts gsc gmsg gipt w).call scope = w) ∧
    (gts ≤ w.duration →
      ((addGlobalMiddleware gts gsc gmsg gipt w).call scope).result =
        Except.ok ((addGlobalMiddleware gts gsc gmsg gipt w).default_timeout_response gts)) ∧
    (dts ≤ (func inv).duration → dts < gts → dcth = none →
      ∃ r : Response,
        ((addGlobalMiddleware gts gsc gmsg gipt w).call scope).result = Except.ok r ∧
        r.status_code = dsc ∧
        Body.get r.body "detail" = some (Jv.str dmsg) ∧
        Body.get r.body "timeout_seconds" = some (Jv.num dts)) := by
  refine ⟨?_, ?_, ?_⟩
  · intro hlt hne
    have hwf : wait_for w gts = w := by unfold wait_for; rw [if_pos hlt]
    rcases hr : w.result with e | r
    · cases e
      · exact absurd hr hne
      · simp [TimeoutMiddleware.call, addGlobalMiddleware, hscope, hwf, hr]
    · simp [TimeoutMiddleware.call, addGlobalMiddleware, hscope, hwf, hr]
  · intro hge
    have hwf : wait_for w gts =
        { duration := gts, result := Except.error Exc.timeoutError } := by
      unfold wait_for; rw [if_neg (not_lt.mpr hge)]
    simp [TimeoutMiddleware.call, addGlobalMiddleware, hscope, hwf,
      TimeoutMiddleware.default_timeout_response]
  · intro hd hlt hnone
    subst hnone
    have hwf2 : wait_for (func inv) dts =
        { duration := dts, result := Except.error Exc.timeoutError } := by
      unfold wait_for; rw [if_neg (not_lt.mpr hd)]
    cases hi : dipt
    · have hww : w = Work.mk dts (Except.ok (Response.mk dsc
          [("detail", Jv.str dmsg), ("timeout_seconds", Jv.num dts)])) := by
        rw [hw]; simp [timeout.wrapper, hwf2, hi]
      exact ⟨{ status_code := dsc,
               body := [("detail", Jv.str dmsg), ("timeout_seconds", Jv.num dts)] },
        by simp [TimeoutMiddleware.call, addGlobalMiddleware, hscope, hww, wait_for, hlt],
        rfl, by simp [Body.get, List.find?], by simp [Body.get, List.find?]⟩
    · have hww : w = Work.mk dts (Except.ok (Response.mk dsc
          [("detail", Jv.str dmsg), ("timeout_seconds", Jv.num dts),
           ("processing_time", Jv.num (round3 dts))])) := by
        rw [hw]; simp [timeout.wrapper, hwf2, hi]
      exact ⟨{ status_code := dsc,
               body := [("detail", Jv.str dmsg), ("timeout_seconds", Jv.num dts),
                        ("processing_time", Jv.num (round3 dts))] },
        by simp [TimeoutMiddleware.call, addGlobalMiddleware, hscope, hww, wait_for, hlt],
        rfl, by simp [Body.get, List.find?], by simp [Body.get, List.find?]⟩

/-- A handler body that settles at time 3 — over a 2-unit decorator budget,
under a 5-unit global budget (the spec's precedence scenario). -/
def threeUnitEndpoint : Invocation → Work := fun _ =>
  { duration := 3, result := Except.ok { status_code := 200, body := [] } }

def decoratorOutcome : Work :=
  timeout.wrapper 2 504 "Decorator timeout" false none threeUnitEndpoint emptyInvocation

theorem timeout_precedence_amended_witness :
    (({ type := "http", path := "/f" } : Scope).type = "http" ∧
     decoratorOutcome =
       timeout.wrapper 2 504 "Decorator timeout" false none threeUnitEndpoint
         emptyInvocation) ∧
    ((decoratorOutcome.duration < 5 →
        decoratorOutcome.result ≠ Except.error Exc.timeoutError →
        (addGlobalMiddleware 5 504 "Global timeout" false decoratorOutcome).call
            { type := "http", path := "/f" } = decoratorOutcome) ∧
     ((5 : ℚ) ≤ decoratorOutcome.duration →
        ((addGlobalMiddleware 5 504 "Global timeout" false decoratorOutcome).call
            { type := "http", path := "/f" }).result =
          Except.ok ((addGlobalMiddleware 5 504 "Global timeout" false
              decoratorOutcome).default_timeout_response 5)) ∧
     ((2 : ℚ) ≤ (threeUnitEndpoint emptyInvocation).duration → (2 : ℚ) < 5 →
        (none : Option Responder) = none →
        ∃ r : Response,
          ((addGlobalMiddleware 5 504 "Global timeout" false decoratorOutcome).call
              { type := "http", path := "/f" }).result = Except.ok r ∧
          r.status_code = 504 ∧
          Body.get r.body "detail" = some (Jv.str "Decorator timeout") ∧
          Body.get r.body "timeout_seconds" = some (Jv.num 2))) :=
  ⟨⟨rfl, rfl⟩,
   timeout_precedence_amended 5 504 "Global timeout" false 2 504 "Decorator timeout"
     false none threeUnitEndpoint emptyInvocation { type := "http", path := "/f" }
     decoratorOutcome rfl rfl⟩

end FastapiTimeout
